import Mathlib

/-!
Verification of the Geo_Chat buildings backend (`src/backend/main.py`).

The development shallowly embeds the query pipeline of the backend:

* `parse_height_filter` together with a faithful executable model of
  `HEIGHT_REGEX.search` (a backtracking matcher specialised to that
  pattern, preserving Python `re` alternation order, lazy/greedy
  quantifier preferences and word boundaries);
* `height_to_color` (the blue→red gradient, with Python `int()`
  truncation and `%02x` formatting);
* `apply_height_filter` (pandas comparison masks; `NaN` compares false
  under every operator);
* `add_colour_column`, `normalize_property`, `build_insights` and the
  `/query` endpoint body `query_geo`.

Python floats are modelled as exact rationals (`ℚ`); a missing / NaN
height cell is modelled as `none : Option ℚ`.  Fallible code (Python
exceptions) is modelled with `Except` / `Option`.
-/

/-! ### Character classes (ASCII models of Python `\s`, `\d`, `\w`) -/

/-- Python `\s` (ASCII part: space, tab, newline, carriage return,
vertical tab, form feed).  Queries are ASCII, so the exotic Unicode
space characters are not modelled. -/
def isPySpace (c : Char) : Bool :=
  c == ' ' || c == '\t' || c == '\n' || c == '\r' || c == '\x0b' || c == '\x0c'

/-- Python `\d` (ASCII decimal digits). -/
def isPyDigit (c : Char) : Bool := c.isDigit

/-- Python `\w` (ASCII part: letters, digits, underscore), used for the
`\b` word boundaries of `HEIGHT_REGEX`. -/
def isWordChar (c : Char) : Bool := c.isAlphanum || c == '_'

/-- Word-character test lifted to an optional character (edge of the
string counts as a non-word position). -/
def isWordO : Option Char → Bool
  | none => false
  | some c => isWordChar c

/-- The `\b` assertion: a word boundary lies between two positions iff exactly one of
the two neighbouring characters is a word character. -/
def atBoundary (a b : Option Char) : Bool := isWordO a != isWordO b

/-! ### A backtracking matcher specialised to `HEIGHT_REGEX`

```
(?P<anchor>\b(?:height|tall|taller|above|over|greater|less|below|under|
              at\s+least|at\s+most|exactly)\b)
[^\d]{0,12}?
(?P<op>>=|<=|>|<|=|==|greater\s+than|less\s+than|at\s+least|at\s+most|
       above|below|over|under|exactly)?
\s*
(?P<val>\d+(?:\.\d+)?)
\s*(?:m|meters?)?
```
compiled with `re.IGNORECASE | re.VERBOSE` and used via `.search`
(leftmost match; alternatives tried in source order; `{0,12}?` lazy,
`?`, `*`, `+` greedy).  The trailing `\s*(?:m|meters?)?` can always
match the empty string and captures nothing, so it never causes
backtracking and is not modelled explicitly. -/

/-- Case-insensitive literal match (`re.IGNORECASE`), returning the
verbatim consumed characters and the rest of the input. -/
def litCI : List Char → List Char → Option (List Char × List Char)
  | [], s => some ([], s)
  | _ :: _, [] => none
  | p :: ps, c :: cs =>
    if c.toLower = p.toLower then
      match litCI ps cs with
      | none => none
      | some (con, r) => some (c :: con, r)
    else none

/-- One-or-more whitespace characters (`\s+`).  The `\s+` occurrences in
the pattern are always followed by a letter, which is never a whitespace
character, so of all the runs a backtracking engine would try only the
maximal run can be followed by the next literal; consuming it greedily
is therefore exact. -/
def spanSpaces1 (s : List Char) : Option (List Char × List Char) :=
  match s with
  | [] => none
  | c :: _ =>
    if isPySpace c then some (s.takeWhile isPySpace, s.dropWhile isPySpace)
    else none

/-- A phrase: literal words joined by `\s+` (e.g. `at\s+least`).
Returns the verbatim consumed text (whitespace included). -/
def matchPhrase : List (List Char) → List Char → Option (List Char × List Char)
  | [], s => some ([], s)
  | [w], s => litCI w s
  | w :: ws, s =>
    match litCI w s with
    | none => none
    | some (c1, r1) =>
      match spanSpaces1 r1 with
      | none => none
      | some (sp, r2) =>
        match matchPhrase ws r2 with
        | none => none
        | some (c2, r3) => some (c1 ++ sp ++ c2, r3)

/-- The word lists of a phrase, written from a string for readability. -/
def chs (s : String) : List Char := s.toList

/-- The captures of a successful `HEIGHT_REGEX` match: the verbatim
`anchor` and (optional) `op` group texts, and the `val` group split as
integer digits plus optional fractional digits. -/
structure HMatch where
  anchor : List Char
  rawOp : Option (List Char)
  valInt : List Char
  valFrac : Option (List Char)
deriving DecidableEq, Repr

/-- The group `(?P<val>\d+(?:\.\d+)?)`: both `\d+` and the optional fraction are
greedy; everything after the `val` group can match the empty string, so
the maximal digit runs are final. -/
def matchVal (s : List Char) : Option (List Char × Option (List Char)) :=
  match s with
  | [] => none
  | c :: _ =>
    if isPyDigit c then
      let ds := s.takeWhile isPyDigit
      let r := s.dropWhile isPyDigit
      match r with
      | '.' :: r2 =>
        if (r2.head?.map isPyDigit).getD false then
          some (ds, some (r2.takeWhile isPyDigit))
        else some (ds, none)
      | _ => some (ds, none)
    else none

/-- The `\s*` before the `val` group followed by the required `\d+`: a
whitespace character is never a digit, so only the maximal whitespace
run can precede the first digit. -/
def afterOp (anc : List Char) (rawOp : Option (List Char)) (s : List Char) :
    Option HMatch :=
  match matchVal (s.dropWhile isPySpace) with
  | none => none
  | some (ds, fr) => some ⟨anc, rawOp, ds, fr⟩

/-- The alternatives of the `op` group, in the source order of
`HEIGHT_REGEX`. -/
def opAlts : List (List (List Char)) :=
  [[chs ">="], [chs "<="], [chs ">"], [chs "<"], [chs "="], [chs "=="],
   [chs "greater", chs "than"], [chs "less", chs "than"],
   [chs "at", chs "least"], [chs "at", chs "most"],
   [chs "above"], [chs "below"], [chs "over"], [chs "under"], [chs "exactly"]]

/-- The optional greedy `(?P<op>...)?`: alternatives are tried in source
order, and only if every alternative (with the rest of the pattern)
fails is the group skipped. -/
def tryOps : List (List (List Char)) → List Char → List Char → Option HMatch
  | [], anc, s => afterOp anc none s
  | alt :: alts, anc, s =>
    match matchPhrase alt s with
    | some (con, rest) =>
      match afterOp anc (some con) rest with
      | some m => some m
      | none => tryOps alts anc s
    | none => tryOps alts anc s

/-- The lazy bounded gap `[^\d]{0,12}?`: zero repetitions are preferred,
and one more non-digit character is consumed only when the rest of the
pattern fails. -/
def tryGap : ℕ → List Char → List Char → Option HMatch
  | budget, anc, s =>
    match tryOps opAlts anc s with
    | some m => some m
    | none =>
      match budget, s with
      | b + 1, c :: cs => if isPyDigit c then none else tryGap b anc cs
      | _, _ => none

/-- The alternatives of the `anchor` group, in source order. -/
def anchorAlts : List (List (List Char)) :=
  [[chs "height"], [chs "tall"], [chs "taller"], [chs "above"], [chs "over"],
   [chs "greater"], [chs "less"], [chs "below"], [chs "under"],
   [chs "at", chs "least"], [chs "at", chs "most"], [chs "exactly"]]

/-- Anchor alternatives with the trailing `\b` (every anchor ends in a
letter, so the boundary holds iff the next character is not a word
character); on failure of the rest, the next alternative is tried. -/
def tryAnchors : List (List (List Char)) → List Char → Option HMatch
  | [], _ => none
  | alt :: alts, s =>
    match matchPhrase alt s with
    | some (con, rest) =>
      if atBoundary con.getLast? rest.head? then
        match tryGap 12 con rest with
        | some m => some m
        | none => tryAnchors alts s
      else tryAnchors alts s
    | none => tryAnchors alts s

/-- Model of `re.search`: starting positions are tried left to right; the leading
`\b` of the anchor group is checked against the previous character. -/
def searchFrom : Option Char → List Char → Option HMatch
  | prev, [] =>
    if atBoundary prev none then tryAnchors anchorAlts [] else none
  | prev, c :: cs =>
    match (if atBoundary prev (some c) then tryAnchors anchorAlts (c :: cs)
           else none) with
    | some m => some m
    | none => searchFrom (some c) cs

/-- Model of `HEIGHT_REGEX.search(query)` (`src/backend/main.py`, lines 112-122). -/
def hsearch (s : List Char) : Option HMatch := searchFrom none s

/-! ### `parse_height_filter` (`src/backend/main.py`, lines 125-174) -/

/-- The structured height filter `{"op": ..., "val": ...}`. -/
structure HFilter where
  op : String
  val : ℚ
deriving DecidableEq, Repr

/-- Python `str.strip()` (ASCII whitespace model). -/
def pyStrip (s : String) : String :=
  String.mk (((s.toList.dropWhile isPySpace).reverse.dropWhile isPySpace).reverse)

/-- Python `str.lower()` (ASCII model). -/
def pyLower (s : String) : String := String.mk (s.toList.map Char.toLower)

/-- Value of a run of decimal digit characters. -/
def digitsVal (l : List Char) : ℕ :=
  l.foldl (fun a c => 10 * a + (c.toNat - '0'.toNat)) 0

/-- Model of `float(m.group("val"))`: the captured literal is unsigned digits
with an optional fractional part, read as an exact rational. -/
def pyFloatVal (m : HMatch) : ℚ :=
  (digitsVal m.valInt : ℚ) +
    (match m.valFrac with
     | none => 0
     | some f => (digitsVal f : ℚ) / (10 : ℚ) ^ f.length)

/-- Model of `textual_map.get(raw_op, "==")` (`src/backend/main.py`,
lines 141-159 and 172): the dict literal rendered as a decision chain,
with the `.get` default `"=="` as the final branch. -/
def textual_map_get : String → String
  | ">" => ">"
  | ">=" => ">="
  | "<" => "<"
  | "<=" => "<="
  | "=" => "=="
  | "==" => "=="
  | "greater than" => ">"
  | "greater" => ">"
  | "above" => ">"
  | "over" => ">"
  | "at least" => ">="
  | "less than" => "<"
  | "less" => "<"
  | "below" => "<"
  | "under" => "<"
  | "at most" => "<="
  | "exactly" => "=="
  | _ => "=="

/-- Model of `parse_height_filter` (`src/backend/main.py`, lines 125-174). -/
def parse_height_filter (query : String) : Option HFilter :=
  if query = "" then none
  else
    match hsearch query.toList with
    | none => none
    | some m =>
      let raw_op := pyLower (pyStrip (String.mk (m.rawOp.getD [])))
      let val := pyFloatVal m
      let op :=
        if raw_op = "" then
          let anchor := pyLower (String.mk m.anchor)
          if (["tall", "taller", "height", "greater", "above", "over"] :
              List String).contains anchor then ">"
          else if (["less", "below", "under"] : List String).contains anchor
            then "<"
          else "=="
        else textual_map_get raw_op
      some ⟨op, val⟩

/-! ### `height_to_color` (`src/backend/main.py`, lines 93-104) -/

/-- Python `int()` on a float: truncation toward zero. -/
def pyInt (q : ℚ) : ℤ := if 0 ≤ q then ⌊q⌋ else -⌊-q⌋

/-- Python `format(n, "02x")` on a natural number: lowercase hex digits,
left-padded with zeros to a minimum width of two. -/
def fmt02x (n : ℕ) : String :=
  String.mk (List.replicate (2 - (Nat.toDigits 16 n).length) '0' ++
    Nat.toDigits 16 n)

/-- Model of `height_to_color(height, low_h, high_h)`.  A missing / NaN height is
`none` (the `pd.isna` test); the `int()` results `r` and `g` lie in
`[0, 255]` because the ratio is clamped, so formatting their `.toNat`
with `fmt02x` coincides with the signed `%02x` formatting of the
source. -/
def height_to_color (height : Option ℚ) (low_h high_h : ℚ) : String :=
  match height with
  | none => "#1f78b4"
  | some h =>
    if high_h = low_h then "#1f78b4"
    else
      let ratio := (h - low_h) / (high_h - low_h)
      let ratio2 := max 0 (min 1 ratio)
      let r := pyInt (255 * ratio2)
      let g := pyInt (255 * (1 - ratio2))
      "#" ++ fmt02x r.toNat ++ fmt02x g.toNat ++ fmt02x 0

/-! ### Property values and `normalize_property`
(`src/backend/main.py`, lines 225-251) -/

/-- A scalar cell value of the attribute table, as the relevant Python
runtime kinds.  `none_` is Python `None` and also the missing scalars
NaN / NaT (everything `pd.isna` reports as missing); `real` holds finite
floats; `pybool` is a Python `bool` (a subclass of `int`, so
`isinstance(v, numbers.Integral)` holds for it); `npbool` is a numpy
`bool_` (registered with none of the `numbers` ABCs); `timestamp`
carries its `isoformat()` rendering; `obj` is any other scalar object. -/
inductive PScalar where
  | none_ : PScalar
  | int (n : ℤ) : PScalar
  | real (q : ℚ) : PScalar
  | pybool (b : Bool) : PScalar
  | npbool (b : Bool) : PScalar
  | timestamp (iso : String) : PScalar
  | str (s : String) : PScalar
  | obj (tag : String) : PScalar
deriving DecidableEq, Repr

/-- A cell value: a scalar, or a list-valued attribute (e.g. a JSON
array property, which `gpd.read_file` stores as a Python list).  One
level of nesting suffices for the claims. -/
inductive PValue where
  | sc (v : PScalar) : PValue
  | listV (elems : List PScalar) : PValue
deriving DecidableEq, Repr

/-- Model of `pd.isna(v)` on a scalar. -/
def pd_isna_scalar : PScalar → Bool
  | PScalar.none_ => true
  | _ => false

/-- Model of `pd.isna(v)` as used in a truth test.  On scalars it returns a
boolean; on a list it returns an elementwise boolean array, whose truth
test succeeds only for a one-element array (returning that element) and
raises `ValueError` otherwise. -/
def pd_isna : PValue → Except String Bool
  | PValue.sc v => Except.ok (pd_isna_scalar v)
  | PValue.listV [e] => Except.ok (pd_isna_scalar e)
  | PValue.listV _ =>
    Except.error "ValueError: the truth value of an array is ambiguous"

/-- The test `isinstance(v, (np.integer, numbers.Integral))`: integers, and also
Python `bool` (a subclass of `int`). -/
def isIntegralV : PValue → Bool
  | PValue.sc (PScalar.int _) => true
  | PValue.sc (PScalar.pybool _) => true
  | _ => false

/-- The test `isinstance(v, (np.floating, numbers.Real))`: floats, and also the
integral kinds (`Integral ⊆ Real`); the latter are shadowed by the
integral test that runs first. -/
def isRealV : PValue → Bool
  | PValue.sc (PScalar.real _) => true
  | PValue.sc (PScalar.int _) => true
  | PValue.sc (PScalar.pybool _) => true
  | _ => false

/-- The test `isinstance(v, pd.Timestamp)`. -/
def isTimestampV : PValue → Bool
  | PValue.sc (PScalar.timestamp _) => true
  | _ => false

/-- The test `isinstance(v, (np.bool_, bool))`. -/
def isBoolV : PValue → Bool
  | PValue.sc (PScalar.npbool _) => true
  | PValue.sc (PScalar.pybool _) => true
  | _ => false

/-- Python `int(v)` on the integral kinds. -/
def pyIntOf : PValue → ℤ
  | PValue.sc (PScalar.int n) => n
  | PValue.sc (PScalar.pybool b) => if b then 1 else 0
  | _ => 0

/-- Python `float(v)` on the real kinds. -/
def pyFloatOf : PValue → ℚ
  | PValue.sc (PScalar.real q) => q
  | PValue.sc (PScalar.int n) => (n : ℚ)
  | PValue.sc (PScalar.pybool b) => if b then 1 else 0
  | _ => 0

/-- Python `bool(v)` on the boolean kinds. -/
def pyBoolOf : PValue → Bool
  | PValue.sc (PScalar.npbool b) => b
  | PValue.sc (PScalar.pybool b) => b
  | _ => false

/-- Model of `v.isoformat()` on a timestamp. -/
def pyIsoOf : PValue → String
  | PValue.sc (PScalar.timestamp s) => s
  | _ => ""

/-- Model of `normalize_property(v)` (`src/backend/main.py`, lines 225-251), with
the `isinstance` chain in source order.  The `pd.isna` truth test raises
on list-valued input, which the `Except` propagates. -/
def normalize_property (v : PValue) : Except String PValue :=
  if v = PValue.sc PScalar.none_ then Except.ok (PValue.sc PScalar.none_)
  else
    match pd_isna v with
    | Except.error e => Except.error e
    | Except.ok true => Except.ok (PValue.sc PScalar.none_)
    | Except.ok false =>
      if isIntegralV v then Except.ok (PValue.sc (PScalar.int (pyIntOf v)))
      else if isRealV v then Except.ok (PValue.sc (PScalar.real (pyFloatOf v)))
      else if isTimestampV v then Except.ok (PValue.sc (PScalar.str (pyIsoOf v)))
      else if isBoolV v then Except.ok (PValue.sc (PScalar.pybool (pyBoolOf v)))
      else Except.ok v

/-! ### Records and `apply_height_filter`
(`src/backend/main.py`, lines 180-203) -/

/-- One row of the GeoDataFrame.  The `height` column is modelled after
the `pd.to_numeric(..., errors="coerce")` coercion that the backend
applies to it (at startup and again inside the filter/colour steps):
`some q` is a coercible numeric cell, `none` a missing or non-coercible
cell (NaN).  `props` holds the remaining non-geometry columns in column
order, and `geom` the geometry as a coordinate list (`none` models a
missing or non-serialisable geometry, whose `__geo_interface__` access
the endpoint wraps in `try/except` and nulls out). -/
structure Record where
  height : Option ℚ
  props : List (String × PValue)
  geom : Option (List (ℚ × ℚ))
deriving DecidableEq, Repr

/-- The pandas comparison mask for one row: NaN (`none`) compares false
under every operator, `==` included; the final `else` branch of the
source dispatch is `==`. -/
def cmpMask (op : String) (h : Option ℚ) (val : ℚ) : Bool :=
  match h with
  | none => false
  | some x =>
    if op = ">" then decide (val < x)
    else if op = ">=" then decide (val ≤ x)
    else if op = "<" then decide (x < val)
    else if op = "<=" then decide (x ≤ val)
    else decide (x = val)

/-- Model of `apply_height_filter(gdf, filt)` (`src/backend/main.py`,
lines 180-203): `None` is the identity (`gdf.copy()`), otherwise the
boolean-mask row selection `gdf[mask]`, which keeps order. -/
def apply_height_filter (gdf : List Record) (filt : Option HFilter) :
    List Record :=
  match filt with
  | none => gdf
  | some f => gdf.filter (fun r => cmpMask f.op r.height f.val)

/-! ### `add_colour_column` (`src/backend/main.py`, lines 206-219) -/

/-- Model of `series.min()` on a nonempty list (the empty case is unreachable
where this is used). -/
def qminL : List ℚ → ℚ
  | [] => 0
  | x :: xs => xs.foldl min x

/-- Model of `series.max()` on a nonempty list. -/
def qmaxL : List ℚ → ℚ
  | [] => 0
  | x :: xs => xs.foldl max x

/-- Model of `series.mean()`. -/
def qmean (l : List ℚ) : ℚ := l.sum / (l.length : ℚ)

/-- Model of `add_colour_column(gdf)`: the `height_numeric` column is the
coerced height; rows paired with their `color` cell.  If the frame has
no numeric height at all, every colour is the sentinel. -/
def add_colour_column (rows : List Record) : List (Record × String) :=
  match rows.filterMap (fun r => r.height) with
  | [] => rows.map (fun r => (r, "#1f78b4"))
  | h :: hs =>
    rows.map (fun r =>
      (r, match r.height with
          | some x => height_to_color (some x) (qminL (h :: hs)) (qmaxL (h :: hs))
          | none => "#1f78b4"))

/-! ### String formatting helpers used by the insights and the response -/

/-- Grouping of a reversed digit list into blocks of three. -/
def commaGroupRev : List Char → List Char
  | a :: b :: c :: d :: rest => a :: b :: c :: ',' :: commaGroupRev (d :: rest)
  | l => l

/-- Python `format(n, ",")`: decimal digits with thousands separators. -/
def commaFmt (n : ℕ) : String :=
  String.mk (commaGroupRev (Nat.toDigits 10 n).reverse).reverse

/-- Fractional decimal digits of `0 ≤ q < 1`, to the given depth. -/
def fracDigits : ℕ → ℚ → List Char
  | 0, _ => []
  | fuel + 1, q =>
    if q = 0 then []
    else
      Char.ofNat ('0'.toNat + (⌊q * 10⌋).toNat % 10) ::
        fracDigits fuel (q * 10 - ((⌊q * 10⌋ : ℤ) : ℚ))

/-- Python `str(val)` on a float, for the exact decimal values produced
by the parser (`str(45.0) = "45.0"`, `str(12.5) = "12.5"`).  The
double-precision shortest-roundtrip repr is approximated by the exact
decimal expansion to 20 places; no claim depends on this rendering. -/
def fmtFloat (q : ℚ) : String :=
  (if q < 0 then "-" else "") ++
    (⌊|q|⌋).toNat.repr ++ "." ++
    (match fracDigits 20 (|q| - ((⌊|q|⌋ : ℤ) : ℚ)) with
     | [] => "0"
     | ds => String.mk ds)

/-- Python `format(q, ".1f")`: one fractional digit.  Rounding of exact
ties and double-representation artifacts are not modelled (no claim
depends on them); the value is rounded half away from zero. -/
def fmt1 (q : ℚ) : String :=
  (if q < 0 then "-" else "") ++
    ((round (|q| * 10)).toNat / 10).repr ++ "." ++
    ((round (|q| * 10)).toNat % 10).repr

/-! ### `build_insights` (`src/backend/main.py`, lines 257-284) -/

/-- The prose table `{">": "greater than", ...}` indexed with `[op]`:
an unknown key raises `KeyError`, modelled as `none`. -/
def op_text : String → Option String
  | ">" => some "greater than"
  | ">=" => some "at least"
  | "<" => some "less than"
  | "<=" => some "up to"
  | "==" => some "exactly"
  | _ => none

/-- Model of `build_insights(filtered, filt, total)`.  The height column always
exists in this model (the loader guarantees it), so the
`"height" in filtered.columns` test is true.  `none` models the
`KeyError` on an operator outside the prose table. -/
def build_insights (rows : List Record) (filt : Option HFilter) (total : ℕ) :
    Option (List String) :=
  let countLine := commaFmt rows.length ++ " of " ++ commaFmt total ++
    " buildings match the query."
  let rangeLines :=
    if rows = [] then []
    else
      match rows.filterMap (fun r => r.height) with
      | [] => []
      | h :: hs =>
        ["Height range in result: " ++ fmt1 (qminL (h :: hs)) ++ " m – " ++
          fmt1 (qmaxL (h :: hs)) ++ " m (average " ++
          fmt1 (qmean (h :: hs)) ++ " m)"]
  match filt with
  | some f =>
    match op_text f.op with
    | none => none
    | some t =>
      some (("Showing buildings with height " ++ t ++ " " ++ fmtFloat f.val ++
        " m.") :: countLine :: rangeLines)
  | none => some ("Showing all buildings." :: countLine :: rangeLines)

/-! ### Feature serialisation and the `/query` endpoint body
(`src/backend/main.py`, lines 290-349) -/

/-- One response feature.  The `color` column added by
`add_colour_column` is modelled as a distinguished field (in the JSON
response it sits inside `properties`, where `normalize_property` passes
the hex string through unchanged); `props` holds the remaining
normalized properties with the height column first; `geometry` is the
`__geo_interface__` serialisation, `none` when missing or when the
`try/except` nulls it out. -/
structure Feature where
  color : String
  props : List (String × PValue)
  geometry : Option (List (ℚ × ℚ))
deriving DecidableEq, Repr

/-- The height cell of a row as a property value: the column holds
floats after the `pd.to_numeric` coercion, NaN for missing. -/
def pvOfHeight : Option ℚ → PValue
  | some q => PValue.sc (PScalar.real q)
  | none => PValue.sc PScalar.none_

/-- Model of the comprehension normalizing a property mapping, propagating
the exception a list-valued property raises. -/
def normProps : List (String × PValue) → Except String (List (String × PValue))
  | [] => Except.ok []
  | (k, v) :: rest =>
    match normalize_property v with
    | Except.error e => Except.error e
    | Except.ok nv =>
      match normProps rest with
      | Except.error e => Except.error e
      | Except.ok tail => Except.ok ((k, nv) :: tail)

/-- The feature-serialisation loop (`src/backend/main.py`,
lines 305-325): each coloured row becomes a feature with normalized
properties; an exception from `normalize_property` aborts the request. -/
def featuresOf : List (Record × String) → Except String (List Feature)
  | [] => Except.ok []
  | (r, c) :: rest =>
    match normProps (("height", pvOfHeight r.height) :: r.props) with
    | Except.error e => Except.error e
    | Except.ok ps =>
      match featuresOf rest with
      | Except.error e => Except.error e
      | Except.ok tail => Except.ok (⟨c, ps, r.geom⟩ :: tail)

/-- Model of `gdf.total_bounds` over the rows' geometries:
`[minx, miny, maxx, maxy]` over all coordinates, missing geometries
ignored.  With no coordinate at all geopandas yields NaN bounds; that
unreachable-for-the-claims case is given a placeholder value. -/
def total_bounds (rows : List Record) : List ℚ :=
  match rows.foldr (fun r acc => (r.geom.getD []) ++ acc) [] with
  | [] => [0, 0, 0, 0]
  | c :: cs =>
    [qminL ((c :: cs).map (fun p => p.1)), qminL ((c :: cs).map (fun p => p.2)),
     qmaxL ((c :: cs).map (fun p => p.1)), qmaxL ((c :: cs).map (fun p => p.2))]

/-- The colour legend block (`src/backend/main.py`, lines 334-342),
applied to the rows of the coloured frame: low/high of the coerced,
NaN-dropped height column.  When that series is empty its `min()` and
`max()` are NaN and `height_to_color` returns the sentinel for both
entries, which is also the value of the `else` branch for an empty
frame — so both cases produce the sentinel pair here. -/
def legendPair (rows : List Record) : String × String :=
  match rows.filterMap (fun r => r.height) with
  | [] => ("#1f78b4", "#1f78b4")
  | h :: hs =>
    (height_to_color (some (qminL (h :: hs))) (qminL (h :: hs)) (qmaxL (h :: hs)),
     height_to_color (some (qmaxL (h :: hs))) (qminL (h :: hs)) (qmaxL (h :: hs)))

/-- The assembled response of the `/query` endpoint. -/
structure QueryOut where
  features : List Feature
  bounds : List ℚ
  insights : List String
  legend_low : String
  legend_high : String
deriving DecidableEq, Repr

/-- The body of `query_geo` (`src/backend/main.py`, lines 290-349) for a
loaded dataset `gdf` and query `text`: parse, filter, colour, serialise
features, then bounds, insights and legend.  `none` models an uncaught
exception (a 500 response): `normalize_property` raising during feature
serialisation, or the `KeyError` of `build_insights`. -/
def query_geo (gdf : List Record) (text : String) : Option QueryOut :=
  let height_filt := parse_height_filter text
  let filtered := apply_height_filter gdf height_filt
  let coloured := add_colour_column filtered
  match featuresOf coloured with
  | Except.error _ => none
  | Except.ok feats =>
    match build_insights (coloured.map (fun rc => rc.1)) height_filt
        gdf.length with
    | none => none
    | some ins =>
      some ⟨feats,
        (if coloured = [] then ([0, 0, 1, 1] : List ℚ)
         else total_bounds (coloured.map (fun rc => rc.1))),
        ins,
        (if coloured = [] then ("#1f78b4", "#1f78b4")
         else legendPair (coloured.map (fun rc => rc.1))).1,
        (if coloured = [] then ("#1f78b4", "#1f78b4")
         else legendPair (coloured.map (fun rc => rc.1))).2⟩

/-! ### Spec-side colour definitions (for the refinement claims) -/

/-- A lowercase hexadecimal digit. -/
def hexDigitCh (n : ℕ) : Char :=
  if n < 10 then Char.ofNat ('0'.toNat + n) else Char.ofNat ('a'.toNat + n - 10)

/-- Two zero-padded lowercase hex digits, as the spec describes the
per-channel encoding (defined independently of the `%02x` model used in
the source embedding). -/
def hex2 (n : ℕ) : String := String.mk [hexDigitCh (n / 16), hexDigitCh (n % 16)]

/-- The colour the claim's formula produces, with `round` as written in
the claim: `ratio = clamp((height-low)/(high-low), 0, 1)`, red channel
`round(255*ratio)`, green `round(255*(1-ratio))`, blue `0`, each channel
two zero-padded lowercase hex digits after a `#`.  (Mathlib's `round`
rounds half up; the counterexample below is tie-free, so every standard
rounding convention agrees on it.) -/
def claimColorRound (h low high : ℚ) : String :=
  let ratio := max 0 (min 1 ((h - low) / (high - low)))
  "#" ++ hex2 (round (255 * ratio)).toNat ++
    hex2 (round (255 * (1 - ratio))).toNat ++ hex2 0

/-- The claim's formula amended to truncation: red channel
`⌊255*ratio⌋`, green `⌊255*(1-ratio)⌋` (for the clamped, hence
non-negative, products truncation and floor coincide). -/
def claimColorFloor (h low high : ℚ) : String :=
  let ratio := max 0 (min 1 ((h - low) / (high - low)))
  "#" ++ hex2 (⌊255 * ratio⌋).toNat ++ hex2 (⌊255 * (1 - ratio)⌋).toNat ++ hex2 0

/-- The colour the gradient of `height_to_color` produces at a given
clamped ratio (the claims describe the endpoints as the colours at
ratio 0 and ratio 1). -/
def gradientColorAt (ratio : ℚ) : String :=
  "#" ++ fmt02x (pyInt (255 * ratio)).toNat ++
    fmt02x (pyInt (255 * (1 - ratio))).toNat ++ fmt02x 0

/-- Witness collection for C7: one record of height `10`. -/
def wrec : Record := ⟨some 10, [], none⟩

/-- Witness response for C7: the single record is coloured with the
sentinel (degenerate one-point range), the legend is the sentinel pair,
and the bounds fall back to the no-coordinates placeholder. -/
def wout : QueryOut :=
  ⟨[⟨"#1f78b4", [("height", PValue.sc (PScalar.real 10))], none⟩],
   [0, 0, 0, 0],
   ["Showing all buildings.", "1 of 1 buildings match the query.",
    "Height range in result: 10.0 m – 10.0 m (average 10.0 m)"],
   "#1f78b4", "#1f78b4"⟩

/-! ### Helper lemmas -/

/-- Every value of the textual-operator table (default included) is one
of the five comparison symbols. -/
theorem textual_map_get_mem (raw : String) :
    textual_map_get raw = ">" ∨ textual_map_get raw = ">=" ∨
    textual_map_get raw = "<" ∨ textual_map_get raw = "<=" ∨
    textual_map_get raw = "==" := by
  unfold textual_map_get
  split <;> decide

/-- Every filter produced by `parse_height_filter` carries one of the
five comparison symbols. -/
theorem parse_op_mem (s : String) (f : HFilter)
    (h : parse_height_filter s = some f) :
    f.op = ">" ∨ f.op = ">=" ∨ f.op = "<" ∨ f.op = "<=" ∨ f.op = "==" := by
  unfold parse_height_filter at h
  split at h
  · exact absurd h (by simp)
  · split at h
    · exact absurd h (by simp)
    · simp only [Option.some.injEq] at h
      subst h
      simp only
      split
      · split
        · simp
        · split
          · simp
          · simp
      · exact textual_map_get_mem _

/-- The prose table is defined on each of the five comparison symbols. -/
theorem op_text_isSome (op : String)
    (h : op = ">" ∨ op = ">=" ∨ op = "<" ∨ op = "<=" ∨ op = "==") :
    ∃ t, op_text op = some t := by
  rcases h with h | h | h | h | h <;> subst h <;> exact ⟨_, rfl⟩

/-- The first components of the coloured rows are the input rows. -/
theorem add_colour_fst (rows : List Record) :
    (add_colour_column rows).map (fun rc => rc.1) = rows := by
  unfold add_colour_column
  split <;> (rw [List.map_map]; exact List.map_id _)

/-- Feature serialisation preserves the colour column. -/
theorem featuresOf_colors (l : List (Record × String)) (fs : List Feature)
    (h : featuresOf l = Except.ok fs) :
    fs.map (fun f => f.color) = l.map (fun rc => rc.2) := by
  induction l generalizing fs with
  | nil =>
    simp only [featuresOf] at h
    cases h
    simp
  | cons rc rest ih =>
    obtain ⟨r, c⟩ := rc
    simp only [featuresOf] at h
    split at h
    · exact absurd h (by simp)
    · split at h
      · exact absurd h (by simp)
      · rename_i tail heq
        cases h
        simp [ih tail heq]

/-- The `int()` truncation coincides with the floor on non-negative
arguments. -/
theorem pyInt_eq_floor (q : ℚ) (h : 0 ≤ q) : pyInt q = ⌊q⌋ := by
  unfold pyInt
  exact if_pos h

set_option maxRecDepth 4096 in
/-- The two hex encodings agree on every channel value. -/
theorem fmt02x_eq_hex2 : ∀ n, n < 256 → fmt02x n = hex2 n := by decide

/-- Evaluation helper: `parse_height_filter` on a nonempty query whose
regex search succeeds, with the operator-normalisation and the float
conversion left symbolic. -/
theorem parse_height_filter_eq (q : String) (m : HMatch)
    (hq : ¬ q = "") (hs : hsearch q.toList = some m) :
    parse_height_filter q = some
      ⟨(if pyLower (pyStrip (String.mk (m.rawOp.getD []))) = "" then
          (if (["tall", "taller", "height", "greater", "above", "over"] :
              List String).contains (pyLower (String.mk m.anchor)) then ">"
           else if (["less", "below", "under"] : List String).contains
              (pyLower (String.mk m.anchor)) then "<"
           else "==")
        else textual_map_get (pyLower (pyStrip (String.mk (m.rawOp.getD []))))),
        pyFloatVal m⟩ := by
  unfold parse_height_filter
  rw [if_neg hq, hs]

/-- Evaluation helper: `int()` truncation at a non-negative argument
with a known floor. -/
theorem pyInt_eval (q : ℚ) (n : ℤ) (h0 : 0 ≤ q) (hf : ⌊q⌋ = n) :
    pyInt q = n := by
  unfold pyInt
  rw [if_pos h0, hf]

/-- Evaluation helper: `height_to_color` at a non-degenerate range with
known clamped ratio and channel values. -/
theorem height_to_color_eval (h low high ratio : ℚ) (rq gq : ℤ)
    (hne : ¬ high = low)
    (hr : max 0 (min 1 ((h - low) / (high - low))) = ratio)
    (hrv : pyInt (255 * ratio) = rq) (hgv : pyInt (255 * (1 - ratio)) = gq) :
    height_to_color (some h) low high =
      "#" ++ fmt02x rq.toNat ++ fmt02x gq.toNat ++ fmt02x 0 := by
  simp only [height_to_color, if_neg hne, hr, hrv, hgv]

/-- Evaluation helper: the gradient colour at a known ratio. -/
theorem gradientColorAt_eval (ratio : ℚ) (rq gq : ℤ)
    (hrv : pyInt (255 * ratio) = rq) (hgv : pyInt (255 * (1 - ratio)) = gq) :
    gradientColorAt ratio =
      "#" ++ fmt02x rq.toNat ++ fmt02x gq.toNat ++ fmt02x 0 := by
  simp only [gradientColorAt, hrv, hgv]

/-- Evaluation helper: the claim's rounded colour formula at known
channel values. -/
theorem claimColorRound_eval (h low high ratio : ℚ) (rq gq : ℤ)
    (hr : max 0 (min 1 ((h - low) / (high - low))) = ratio)
    (hrv : round (255 * ratio) = rq) (hgv : round (255 * (1 - ratio)) = gq) :
    claimColorRound h low high =
      "#" ++ hex2 rq.toNat ++ hex2 gq.toNat ++ hex2 0 := by
  simp only [claimColorRound, hr, hrv, hgv]

/-! ### Claim theorems -/

/-- C1, counterexample: on the input `"at most 45 meters"` the parser
does **not** return the filter `{op: "<=", val: 45.0}` that the claim
states.  The phrase `at most` is consumed by the `anchor` group (there
is nothing before it for an anchor to match instead), so the `op` group
captures nothing and the anchor-default branch yields `"=="`. -/
theorem c1_counterexample :
    parse_height_filter "at most 45 meters" ≠
      some { op := "<=", val := 45 } := by
  rw [parse_height_filter_eq "at most 45 meters"
    ⟨chs "at most", none, chs "45", none⟩ (by decide) rfl]
  simp only [ne_eq, Option.some.injEq, HFilter.mk.injEq, not_and]
  intro hop
  exact absurd hop (by decide)

/-- C1, amended: for the input `"at most 45 meters"` `parse` returns
`{op: "==", val: 45.0}` — `"at most"` is consumed as the anchor, no
explicit operator token is captured, and an anchor outside the
taller-group and the less-group defaults to `"=="`.  (The textual
mapping `"at most" → "<="` fires only when the phrase follows a
separate anchor, e.g. `"height at most 45"`.) -/
theorem c1_theorem :
    parse_height_filter "at most 45 meters" = some { op := "==", val := 45 } ∧
    parse_height_filter "height at most 45" = some { op := "<=", val := 45 } := by
  constructor
  · rw [parse_height_filter_eq "at most 45 meters"
      ⟨chs "at most", none, chs "45", none⟩ (by decide) rfl]
    simp only [Option.some.injEq, HFilter.mk.injEq]
    refine ⟨by decide, ?_⟩
    simp only [pyFloatVal]
    norm_num [(by decide : digitsVal (chs "45") = 45)]
  · rw [parse_height_filter_eq "height at most 45"
      ⟨chs "height", some (chs "at most"), chs "45", none⟩ (by decide) rfl]
    simp only [Option.some.injEq, HFilter.mk.injEq]
    refine ⟨by decide, ?_⟩
    simp only [pyFloatVal]
    norm_num [(by decide : digitsVal (chs "45") = 45)]

/-- C10: whenever `parse_height_filter` returns a filter, its operator
is one of the five comparison symbols (an unmapped captured operator
text defaults to `"=="`), and its threshold — built from the digits of
the unsigned `val` capture, a minus sign being impossible — is a
non-negative (finite, as every rational is) number. -/
theorem c10_theorem (s : String) (f : HFilter)
    (h : parse_height_filter s = some f) :
    (f.op = ">" ∨ f.op = ">=" ∨ f.op = "<" ∨ f.op = "<=" ∨ f.op = "==") ∧
      0 ≤ f.val := by
  refine ⟨parse_op_mem s f h, ?_⟩
  unfold parse_height_filter at h
  split at h
  · exact absurd h (by simp)
  · split at h
    · exact absurd h (by simp)
    · simp only [Option.some.injEq] at h
      subst h
      simp only
      unfold pyFloatVal
      split <;> positivity

/-- C10, witness at the query `"height > 30"`. -/
theorem c10_witness :
    parse_height_filter "height > 30" = some { op := ">", val := 30 } ∧
      ((({ op := ">", val := 30 } : HFilter).op = ">" ∨
        ({ op := ">", val := 30 } : HFilter).op = ">=" ∨
        ({ op := ">", val := 30 } : HFilter).op = "<" ∨
        ({ op := ">", val := 30 } : HFilter).op = "<=" ∨
        ({ op := ">", val := 30 } : HFilter).op = "==") ∧
        0 ≤ ({ op := ">", val := 30 } : HFilter).val) := by
  have hp : parse_height_filter "height > 30" = some { op := ">", val := 30 } := by
    rw [parse_height_filter_eq "height > 30"
      ⟨chs "height", some (chs ">"), chs "30", none⟩ (by decide) rfl]
    simp only [Option.some.injEq, HFilter.mk.injEq]
    refine ⟨by decide, ?_⟩
    simp only [pyFloatVal]
    norm_num [(by decide : digitsVal (chs "30") = 30)]
  exact ⟨hp, c10_theorem "height > 30" { op := ">", val := 30 } hp⟩

/-- C5: `height_to_color` returns the sentinel `"#1f78b4"` whenever the
height is missing / non-numeric (`none`) or the range is degenerate
(`low == high`). -/
theorem c5_theorem (h : Option ℚ) (low high : ℚ)
    (hd : h = none ∨ low = high) : height_to_color h low high = "#1f78b4" := by
  rcases hd with hd | hd
  · subst hd; rfl
  · cases h with
    | none => rfl
    | some x =>
      subst hd
      simp [height_to_color]

/-- C5, witness at a missing height. -/
theorem c5_witness :
    ((none : Option ℚ) = none ∨ (0 : ℚ) = 1) ∧
      height_to_color none 0 1 = "#1f78b4" :=
  ⟨Or.inl rfl, c5_theorem none 0 1 (Or.inl rfl)⟩

/-- C3: over the range `low=10, high=30`, `colorFor(10,10,30)` and
`colorFor(30,10,30)` are exactly the gradient's two endpoint colours
(the colours produced at ratio `0` and ratio `1`; with the blue channel
fixed at `0` these evaluate to `"#00ff00"` and the pure red
`"#ff0000"`), and the midpoint `colorFor(20,10,30)` has red and green
channels `127` (which is `127 or 128`) and blue channel `0`. -/
theorem c3_theorem :
    height_to_color (some 10) 10 30 = gradientColorAt 0 ∧
    height_to_color (some 30) 10 30 = gradientColorAt 1 ∧
    gradientColorAt 0 = "#00ff00" ∧
    gradientColorAt 1 = "#ff0000" ∧
    ∃ rc gc, (rc = 127 ∨ rc = 128) ∧ (gc = 127 ∨ gc = 128) ∧
      height_to_color (some 20) 10 30 = "#" ++ hex2 rc ++ hex2 gc ++ hex2 0 := by
  have e00 : pyInt (255 * (0 : ℚ)) = 0 :=
    pyInt_eval _ _ (by norm_num) (by norm_num)
  have e01 : pyInt (255 * (1 - (0 : ℚ))) = 255 :=
    pyInt_eval _ _ (by norm_num) (by norm_num)
  have e10 : pyInt (255 * (1 : ℚ)) = 255 :=
    pyInt_eval _ _ (by norm_num) (by norm_num)
  have e11 : pyInt (255 * (1 - (1 : ℚ))) = 0 :=
    pyInt_eval _ _ (by norm_num) (by norm_num)
  have eh0 : pyInt (255 * ((1 : ℚ) / 2)) = 127 :=
    pyInt_eval _ _ (by norm_num) (by norm_num)
  have eh1 : pyInt (255 * (1 - (1 : ℚ) / 2)) = 127 :=
    pyInt_eval _ _ (by norm_num) (by norm_num)
  refine ⟨?_, ?_, ?_, ?_, 127, 127, Or.inl rfl, Or.inl rfl, ?_⟩
  · rw [height_to_color_eval 10 10 30 0 0 255 (by norm_num)
      (by norm_num [max_def, min_def]) e00 e01,
      gradientColorAt_eval 0 0 255 e00 e01]
  · rw [height_to_color_eval 30 10 30 1 255 0 (by norm_num)
      (by norm_num [max_def, min_def]) e10 e11,
      gradientColorAt_eval 1 255 0 e10 e11]
  · rw [gradientColorAt_eval 0 0 255 e00 e01]; decide
  · rw [gradientColorAt_eval 1 255 0 e10 e11]; decide
  · rw [height_to_color_eval 20 10 30 (1 / 2) 127 127 (by norm_num)
      (by norm_num [max_def, min_def]) eh0 eh1]
    decide

/-- C2, counterexample: the claim's `round`-based formula disagrees
with the code.  At `height = 1`, `low = 0`, `high = 7` the ratio is
`1/7`; the code truncates `255·(6/7) = 218.57…` to green channel `218`
(`"#24da00"`), while rounding gives `219` (`"#24db00"`); the instance is
tie-free, so every standard rounding convention agrees on it. -/
theorem c2_counterexample :
    height_to_color (some 1) 0 7 ≠ claimColorRound 1 0 7 := by
  have h1 : height_to_color (some 1) 0 7 = "#24da00" := by
    rw [height_to_color_eval 1 0 7 (1 / 7) 36 218 (by norm_num)
      (by norm_num [max_def, min_def])
      (pyInt_eval _ _ (by norm_num) (by norm_num))
      (pyInt_eval _ _ (by norm_num) (by norm_num))]
    decide
  have h2 : claimColorRound 1 0 7 = "#24db00" := by
    rw [claimColorRound_eval 1 0 7 (1 / 7) 36 219
      (by norm_num [max_def, min_def]) (by norm_num [round_eq])
      (by norm_num [round_eq])]
    decide
  rw [h1, h2]
  decide

/-- C2, amended: for every non-degenerate range `low < high` and
numeric height, the code computes
`ratio = clamp((height-low)/(high-low), 0, 1)` and returns `"#"`
followed by two zero-padded lowercase hex digits for each channel, with
red `⌊255·ratio⌋`, green `⌊255·(1-ratio)⌋` (truncation, not rounding)
and blue `0`. -/
theorem c2_theorem (h low high : ℚ) (hlt : low < high) :
    height_to_color (some h) low high = claimColorFloor h low high := by
  have hne : high ≠ low := ne_of_gt hlt
  simp only [height_to_color, claimColorFloor, if_neg hne]
  set ρ := max 0 (min 1 ((h - low) / (high - low))) with hρdef
  have hρ0 : 0 ≤ ρ := le_max_left _ _
  have hρ1 : ρ ≤ 1 := max_le (by norm_num) (min_le_left _ _)
  have hr0 : (0 : ℚ) ≤ 255 * ρ := by positivity
  have hg0 : (0 : ℚ) ≤ 255 * (1 - ρ) := by nlinarith
  have hr255 : 255 * ρ ≤ 255 := by nlinarith
  have hg255 : 255 * (1 - ρ) ≤ 255 := by nlinarith
  have hfr : (⌊(255 : ℚ) * ρ⌋).toNat < 256 := by
    have h1 : ⌊(255 : ℚ) * ρ⌋ ≤ ⌊(255 : ℚ)⌋ := Int.floor_le_floor hr255
    have h2 : ⌊(255 : ℚ)⌋ = 255 := by norm_num
    omega
  have hfg : (⌊(255 : ℚ) * (1 - ρ)⌋).toNat < 256 := by
    have h1 : ⌊(255 : ℚ) * (1 - ρ)⌋ ≤ ⌊(255 : ℚ)⌋ := Int.floor_le_floor hg255
    have h2 : ⌊(255 : ℚ)⌋ = 255 := by norm_num
    omega
  rw [pyInt_eq_floor _ hr0, pyInt_eq_floor _ hg0,
    fmt02x_eq_hex2 _ hfr, fmt02x_eq_hex2 _ hfg,
    fmt02x_eq_hex2 0 (by norm_num)]

/-- C2, witness at `height = 1`, `low = 0`, `high = 7`. -/
theorem c2_witness :
    (0 : ℚ) < 7 ∧ height_to_color (some 1) 0 7 = claimColorFloor 1 0 7 :=
  ⟨by norm_num, c2_theorem 1 0 7 (by norm_num)⟩

/-- C9: `normalize_property` maps a Python `bool` to an **integer**
(`True ↦ 1`, `False ↦ 0`), because `bool` is a subclass of `int` and
the `isinstance(v, (np.integer, numbers.Integral))` branch fires before
the boolean branch; only numpy `bool_` values reach the boolean branch
and come back as booleans.  This contradicts the claim (and makes the
explicit `bool` entry of the `isinstance(v, (np.bool_, bool))` tuple
dead code). -/
theorem c9_theorem :
    normalize_property (PValue.sc (PScalar.pybool true)) =
      Except.ok (PValue.sc (PScalar.int 1)) ∧
    normalize_property (PValue.sc (PScalar.pybool false)) =
      Except.ok (PValue.sc (PScalar.int 0)) ∧
    normalize_property (PValue.sc (PScalar.npbool true)) =
      Except.ok (PValue.sc (PScalar.pybool true)) :=
  ⟨rfl, rfl, rfl⟩

/-- C8: `normalize_property` raises on a list-valued property (the
`if pd.isna(v)` truth test receives an elementwise array), instead of
passing it through; scalar values of unrecognized kinds do pass through
unchanged. -/
theorem c8_theorem :
    normalize_property (PValue.listV [PScalar.int 1, PScalar.int 2]) =
      Except.error "ValueError: the truth value of an array is ambiguous" ∧
    normalize_property (PValue.sc (PScalar.obj "a-free-form-object")) =
      Except.ok (PValue.sc (PScalar.obj "a-free-form-object")) :=
  ⟨rfl, rfl⟩

/-- C4: under a non-null filter, a record with missing / non-coercible
height (NaN) is excluded for every operator, `==` included, and a
record with coercible height `x` is kept exactly when `x <op> val`
holds as a standard rational-number comparison. -/
theorem c4_theorem (gdf : List Record) (op : String) (val : ℚ) (r : Record)
    (hop : op = ">" ∨ op = ">=" ∨ op = "<" ∨ op = "<=" ∨ op = "==") :
    (r.height = none → r ∉ apply_height_filter gdf (some ⟨op, val⟩)) ∧
    (∀ x : ℚ, r.height = some x →
      (r ∈ apply_height_filter gdf (some ⟨op, val⟩) ↔
        r ∈ gdf ∧
          ((op = ">" ∧ val < x) ∨ (op = ">=" ∧ val ≤ x) ∨
           (op = "<" ∧ x < val) ∨ (op = "<=" ∧ x ≤ val) ∨
           (op = "==" ∧ x = val)))) := by
  constructor
  · intro hn hmem
    unfold apply_height_filter at hmem
    rw [List.mem_filter] at hmem
    have h2 := hmem.2
    rw [hn] at h2
    simp [cmpMask] at h2
  · intro x hx
    unfold apply_height_filter
    rw [List.mem_filter, hx]
    rcases hop with h | h | h | h | h <;> subst h <;> simp [cmpMask]

/-- C4, witness: operator `">"`, threshold `5`, and a record of height
`10` inside a one-record collection. -/
theorem c4_witness :
    ((">" : String) = ">" ∨ (">" : String) = ">=" ∨ (">" : String) = "<" ∨
      (">" : String) = "<=" ∨ (">" : String) = "==") ∧
    (((⟨some 10, [], none⟩ : Record).height = none →
        (⟨some 10, [], none⟩ : Record) ∉
          apply_height_filter [⟨some 10, [], none⟩] (some ⟨">", 5⟩)) ∧
     (∀ x : ℚ, (⟨some 10, [], none⟩ : Record).height = some x →
       ((⟨some 10, [], none⟩ : Record) ∈
            apply_height_filter [⟨some 10, [], none⟩] (some ⟨">", 5⟩) ↔
         (⟨some 10, [], none⟩ : Record) ∈ [(⟨some 10, [], none⟩ : Record)] ∧
           (((">" : String) = ">" ∧ (5 : ℚ) < x) ∨
            ((">" : String) = ">=" ∧ (5 : ℚ) ≤ x) ∨
            ((">" : String) = "<" ∧ x < (5 : ℚ)) ∨
            ((">" : String) = "<=" ∧ x ≤ (5 : ℚ)) ∨
            ((">" : String) = "==" ∧ x = (5 : ℚ)))))) :=
  ⟨Or.inl rfl,
    c4_theorem [⟨some 10, [], none⟩] ">" 5 ⟨some 10, [], none⟩ (Or.inl rfl)⟩

/-- Value of `build_insights` on the empty frame with no filter. -/
theorem build_insights_nil_none (total : ℕ) :
    build_insights [] none total =
      some ["Showing all buildings.",
        "0 of " ++ commaFmt total ++ " buildings match the query."] := by
  simp only [build_insights]
  rw [(by decide :
    commaFmt (List.length ([] : List Record)) ++ " of " = "0 of ")]
  simp

/-- Value of `build_insights` on the empty frame with a filter whose operator
the prose table knows. -/
theorem build_insights_nil_some (f : HFilter) (t : String) (total : ℕ)
    (ht : op_text f.op = some t) :
    build_insights [] (some f) total =
      some [("Showing buildings with height " ++ t ++ " " ++
          fmtFloat f.val ++ " m."),
        "0 of " ++ commaFmt total ++ " buildings match the query."] := by
  simp only [build_insights, ht]
  rw [(by decide :
    commaFmt (List.length ([] : List Record)) ++ " of " = "0 of ")]
  simp

/-- Value of `query_geo` when the filtered subset is empty: empty feature list,
default bounds, sentinel legend. -/
theorem query_geo_empty (gdf : List Record) (text : String) (ins : List String)
    (hempty : apply_height_filter gdf (parse_height_filter text) = [])
    (hins : build_insights [] (parse_height_filter text) gdf.length = some ins) :
    query_geo gdf text = some ⟨[], [0, 0, 1, 1], ins, "#1f78b4", "#1f78b4"⟩ := by
  simp only [query_geo, hempty, (show add_colour_column [] = [] from rfl),
    List.map_nil, hins, (show featuresOf [] = Except.ok [] from rfl)]
  simp

/-- C6: when the filtered subset is empty, the response is assembled
with the default bounding box `[0,0,1,1]`, both legend entries equal to
the sentinel `"#1f78b4"`, and an insight sentence
`"0 of N buildings match the query."` with `N` the total number of
records (thousands-grouped, as the source formats counts). -/
theorem c6_theorem (gdf : List Record) (text : String)
    (hempty : apply_height_filter gdf (parse_height_filter text) = []) :
    ∃ out, query_geo gdf text = some out ∧
      out.bounds = [0, 0, 1, 1] ∧ out.legend_low = "#1f78b4" ∧
      out.legend_high = "#1f78b4" ∧
      ("0 of " ++ commaFmt gdf.length ++ " buildings match the query.") ∈
        out.insights := by
  cases hp : parse_height_filter text with
  | none =>
    refine ⟨_, query_geo_empty gdf text _ hempty
      (by rw [hp]; exact build_insights_nil_none gdf.length),
      rfl, rfl, rfl, ?_⟩
    exact List.mem_cons_of_mem _ (List.mem_cons_self _ _)
  | some f =>
    obtain ⟨t, ht⟩ := op_text_isSome f.op (parse_op_mem text f hp)
    refine ⟨_, query_geo_empty gdf text _ hempty
      (by rw [hp]; exact build_insights_nil_some f t gdf.length ht),
      rfl, rfl, rfl, ?_⟩
    exact List.mem_cons_of_mem _ (List.mem_cons_self _ _)

/-- C6, witness: the empty collection with the empty query. -/
theorem c6_witness :
    apply_height_filter [] (parse_height_filter "") = [] ∧
    ∃ out, query_geo [] "" = some out ∧
      out.bounds = [0, 0, 1, 1] ∧ out.legend_low = "#1f78b4" ∧
      out.legend_high = "#1f78b4" ∧
      ("0 of " ++ commaFmt (List.length ([] : List Record)) ++
          " buildings match the query.") ∈ out.insights :=
  ⟨rfl, c6_theorem [] "" rfl⟩

/-- Decomposition of a successful `query_geo` response: the features
come from serialising the coloured filtered frame, and the legend is
`legendPair` of the filtered rows (for an empty frame both branches of
the source produce the sentinel pair). -/
theorem query_geo_parts (g : List Record) (t : String) (o : QueryOut)
    (h : query_geo g t = some o) :
    featuresOf (add_colour_column (apply_height_filter g (parse_height_filter t))) =
      Except.ok o.features ∧
    o.legend_low = (legendPair (apply_height_filter g (parse_height_filter t))).1 ∧
    o.legend_high = (legendPair (apply_height_filter g (parse_height_filter t))).2 := by
  simp only [query_geo] at h
  split at h
  · exact absurd h (by simp)
  · rename_i feats hfeats
    split at h
    · exact absurd h (by simp)
    · rename_i ins hins
      injection h with h
      subst h
      refine ⟨hfeats, ?_, ?_⟩
      · by_cases hc :
          add_colour_column (apply_height_filter g (parse_height_filter t)) = []
        · have hfil : apply_height_filter g (parse_height_filter t) = [] := by
            rw [← add_colour_fst (apply_height_filter g (parse_height_filter t)),
              hc]
            rfl
          simp [hc, hfil, legendPair,
            (show add_colour_column ([] : List Record) = [] from rfl)]
        · simp [hc, add_colour_fst]
      · by_cases hc :
          add_colour_column (apply_height_filter g (parse_height_filter t)) = []
        · have hfil : apply_height_filter g (parse_height_filter t) = [] := by
            rw [← add_colour_fst (apply_height_filter g (parse_height_filter t)),
              hc]
            rfl
          simp [hc, hfil, legendPair,
            (show add_colour_column ([] : List Record) = [] from rfl)]
        · simp [hc, add_colour_fst]

/-- C7: feature colours and legend are scoped to the filtered subset.
First part: two requests whose filtered subsets coincide (different
collections and/or filters) produce identical feature colours and
legends — nothing of the full collection's range enters.  Second part:
whenever the filtered subset has at least one numeric height (missing
heights dropped), every feature colour is `height_to_color` of that
record's height over the subset's own min and max, and the legend is
the pair of endpoint colours of that same range. -/
theorem c7_theorem (g1 : List Record) (t1 : String) (g2 : List Record)
    (t2 : String) (o1 o2 : QueryOut)
    (h1 : query_geo g1 t1 = some o1) (h2 : query_geo g2 t2 = some o2) :
    ((apply_height_filter g1 (parse_height_filter t1) =
        apply_height_filter g2 (parse_height_filter t2) →
      o1.features.map (fun f => f.color) = o2.features.map (fun f => f.color) ∧
      o1.legend_low = o2.legend_low ∧ o1.legend_high = o2.legend_high) ∧
     (∀ h hs, (apply_height_filter g1 (parse_height_filter t1)).filterMap
          (fun r => r.height) = h :: hs →
       o1.features.map (fun f => f.color) =
         (apply_height_filter g1 (parse_height_filter t1)).map (fun r =>
           match r.height with
           | some x => height_to_color (some x) (qminL (h :: hs)) (qmaxL (h :: hs))
           | none => "#1f78b4") ∧
       o1.legend_low =
         height_to_color (some (qminL (h :: hs))) (qminL (h :: hs))
           (qmaxL (h :: hs)) ∧
       o1.legend_high =
         height_to_color (some (qmaxL (h :: hs))) (qminL (h :: hs))
           (qmaxL (h :: hs)))) := by
  obtain ⟨hf1, hl1, hh1⟩ := query_geo_parts g1 t1 o1 h1
  obtain ⟨hf2, hl2, hh2⟩ := query_geo_parts g2 t2 o2 h2
  have hc1 := featuresOf_colors _ _ hf1
  have hc2 := featuresOf_colors _ _ hf2
  constructor
  · intro heq
    refine ⟨?_, ?_, ?_⟩
    · rw [hc1, hc2, heq]
    · rw [hl1, hl2, heq]
    · rw [hh1, hh2, heq]
  · intro h hs hn
    refine ⟨?_, ?_, ?_⟩
    · rw [hc1]
      unfold add_colour_column
      rw [hn, List.map_map]
      rfl
    · rw [hl1]
      unfold legendPair
      rw [hn]
    · rw [hh1]
      unfold legendPair
      rw [hn]


/-- Evaluation of the witness query for C7. -/
theorem query_geo_wrec : query_geo [wrec] "" = some wout := by
  have hfmt : fmt1 (10 : ℚ) = "10.0" := by
    unfold fmt1
    rw [if_neg (by norm_num),
      (by norm_num [round_eq] : round (|(10 : ℚ)| * 10) = 100)]
    decide
  have hmean : qmean [(10 : ℚ)] = 10 := by
    unfold qmean
    norm_num
  have hins : build_insights [wrec] none 1 =
      some ["Showing all buildings.", "1 of 1 buildings match the query.",
        "Height range in result: 10.0 m – 10.0 m (average 10.0 m)"] := by
    simp only [build_insights,
      (show List.filterMap (fun r => r.height) [wrec] = [(10 : ℚ)] from rfl),
      (show qminL [(10 : ℚ)] = 10 from rfl),
      (show qmaxL [(10 : ℚ)] = 10 from rfl), hmean, hfmt]
    simp
    decide
  simp only [query_geo,
    (show parse_height_filter "" = none from rfl),
    (show apply_height_filter [wrec] none = [wrec] from rfl),
    (show add_colour_column [wrec] = [(wrec, "#1f78b4")] by decide),
    (show featuresOf [(wrec, "#1f78b4")] = Except.ok
      [⟨"#1f78b4", [("height", PValue.sc (PScalar.real 10))], none⟩] from rfl),
    (show List.map (fun rc => rc.1) [(wrec, "#1f78b4")] = [wrec] from rfl),
    (show List.length [wrec] = 1 from rfl), hins]
  simp [wout,
    (show total_bounds [wrec] = [0, 0, 0, 0] from rfl),
    (show legendPair [wrec] = ("#1f78b4", "#1f78b4") by decide)]

/-- C7, witness: the one-record collection with the empty query,
applied on both sides. -/
theorem c7_witness :
    query_geo [wrec] "" = some wout ∧
    ((apply_height_filter [wrec] (parse_height_filter "") =
        apply_height_filter [wrec] (parse_height_filter "") →
      wout.features.map (fun f => f.color) =
        wout.features.map (fun f => f.color) ∧
      wout.legend_low = wout.legend_low ∧
      wout.legend_high = wout.legend_high) ∧
     (∀ h hs, (apply_height_filter [wrec] (parse_height_filter "")).filterMap
          (fun r => r.height) = h :: hs →
       wout.features.map (fun f => f.color) =
         (apply_height_filter [wrec] (parse_height_filter "")).map (fun r =>
           match r.height with
           | some x =>
             height_to_color (some x) (qminL (h :: hs)) (qmaxL (h :: hs))
           | none => "#1f78b4") ∧
       wout.legend_low =
         height_to_color (some (qminL (h :: hs))) (qminL (h :: hs))
           (qmaxL (h :: hs)) ∧
       wout.legend_high =
         height_to_color (some (qmaxL (h :: hs))) (qminL (h :: hs))
           (qmaxL (h :: hs)))) :=
  ⟨query_geo_wrec,
   c7_theorem [wrec] "" [wrec] "" wout wout query_geo_wrec query_geo_wrec⟩
